import Mathlib

/-!
Shallow embedding of the grafana-kafka-datasource backend
(`pkg/plugin/plugin.go` and `pkg/kafka_helper/client.go`).

Modelling conventions:
* timestamps are abstract instants (`Time := Int`);
* `float64` payload values are carried through the pipeline untouched (no
  arithmetic is ever performed on them), so they are embedded as `ℚ`;
* a raw message payload (`e.Value`) is represented by its outcome under
  `json.Unmarshal` into `map[string]float64`: a clean decode, a valid JSON
  object with non-numeric values (unmarshal errors but still populates the
  map), or a payload that is not a valid JSON object (unmarshal errors
  leaving the map nil);
* a Go `map[string]float64` is embedded as its entry list; wherever the code
  ranges over such a map, the unspecified runtime iteration order is made
  explicit as an `enum` parameter constrained (in the theorems) to enumerate
  exactly the map's entries, i.e. to produce a permutation of them;
* the external Kafka client is embedded by the event a poll returns;
  `panic` is an explicit outcome constructor.
-/

namespace GrafanaKafka

/-- Abstract instants (wall-clock timestamps). -/
abbrev Time := Int

/-- Numeric payload values (`float64` in the source); values are only carried,
never computed with, so an exact numeric type is a faithful embedding. -/
abbrev Value := ℚ

/-- Kafka error codes distinguished by the source: `kafka.ErrAllBrokersDown`
(checked in `ConsumerPull`), `kafka.ErrTransport` (checked in `HealthCheck`),
and every other code. -/
inductive KafkaErrorCode
  | errAllBrokersDown
  | errTransport
  | otherCode (n : Int)
deriving DecidableEq, Repr

/-- A raw message payload (the `e.Value` bytes), represented by its outcome
under `json.Unmarshal` into `map[string]float64`:
* `flatNumMap kvs`: a flat JSON object of numbers; unmarshal succeeds and the
  map holds the entries `kvs` (distinct keys, JSON document order);
* `partialNumMap kvs raw`: a valid JSON object some of whose values are not
  numbers; unmarshal returns an `UnmarshalTypeError` but "skips that field and
  completes the unmarshaling as best it can", so the map still holds the
  entries `kvs` it populated (the decodable fields, mismatched ones as zero
  values);
* `malformed raw`: a payload that is not a valid JSON object at all (syntax
  error or top-level type mismatch); unmarshal fails with the map left nil. -/
inductive Payload
  | flatNumMap (kvs : List (String × Value))
  | partialNumMap (kvs : List (String × Value)) (raw : String)
  | malformed (raw : String)
deriving DecidableEq

/-- An event returned by `Consumer.Poll`: a `*kafka.Message` (carrying its
production timestamp and payload), a `kafka.Error` with its code, or any other
event type (the `default` branch of the switch in `ConsumerPull`). -/
inductive KafkaEvent
  | message (timestamp : Time) (payload : Payload)
  | errorEvent (code : KafkaErrorCode)
  | otherEvent
deriving DecidableEq

/-- `type KafkaMessage map[string]float64`, embedded as its entry list. -/
abbrev KafkaMessage := List (String × Value)

/-- `var message KafkaMessage; json.Unmarshal([]byte(e.Value), &message)` with
the returned error ignored: the map ends up with exactly the entries unmarshal
populated — all of them on success, those it could decode for a valid JSON
object with non-numeric values, none for a payload that is not a valid JSON
object. -/
def DecodeMessage : Payload → KafkaMessage
  | Payload.flatNumMap kvs => kvs
  | Payload.partialNumMap kvs _ => kvs
  | Payload.malformed _ => []

/-- Whether `json.Unmarshal` into `map[string]float64` returns an error for
this payload, i.e. the payload is not a flat string-to-number mapping. -/
def decodeFails : Payload → Bool
  | Payload.flatNumMap _ => false
  | Payload.partialNumMap _ _ => true
  | Payload.malformed _ => true

/-- Outcome of `KafkaClient.ConsumerPull`: either the process panics (the
`kafka.ErrAllBrokersDown` branch) or the function returns the message map and
the polled event. -/
inductive PullOutcome
  | panicked (e : KafkaErrorCode)
  | returned (message : KafkaMessage) (ev : Option KafkaEvent)
deriving DecidableEq

/-- `KafkaClient.ConsumerPull` (client.go:61-84), as a function of the event
`Consumer.Poll(100)` returns (`none` models a poll timeout). A `*kafka.Message`
event is decoded (error ignored); a `kafka.Error` event panics exactly when its
code is `kafka.ErrAllBrokersDown` and is otherwise only printed; every other
event falls through the `default` branch. -/
def ConsumerPull (ev : Option KafkaEvent) : PullOutcome :=
  match ev with
  | none => PullOutcome.returned [] none
  | some (KafkaEvent.message _ p) => PullOutcome.returned (DecodeMessage p) ev
  | some (KafkaEvent.errorEvent c) =>
      if c = KafkaErrorCode.errAllBrokersDown
      then PullOutcome.panicked c
      else PullOutcome.returned [] ev
  | some KafkaEvent.otherEvent => PullOutcome.returned [] ev

/-- The values held by one data-frame field: `[]time.Time`, `[]float64` or
`[]int64` in the source. -/
inductive FieldValues
  | times (ts : List Time)
  | floats (xs : List Value)
  | ints (xs : List Int)
deriving DecidableEq

/-- One `data.Field`: a name and its values. -/
structure Field where
  name : String
  values : FieldValues
deriving DecidableEq

/-- One `data.Frame`: its name, its fields in order, and the optional channel
string stored in `FrameMeta.Channel`. -/
structure Frame where
  name : String
  fields : List Field
  meta : Option String
deriving DecidableEq

/-- The frame built by one `RunStream` iteration for a non-nil event
(plugin.go:199-212): a frame named "response" whose first field is "time" with
the single entry `now` (`time.Now()`, the capture time), followed, for each
`(key, value)` pair in the order the runtime enumerates `msg_data`, by a
`float64` field named `key` holding the single entry `value`. -/
def BuildStreamFrame (now : Time) (msgEntries : List (String × Value)) : Frame :=
  { name := "response"
    fields := Field.mk "time" (FieldValues.times [now]) ::
      msgEntries.map (fun kv => Field.mk kv.1 (FieldValues.floats [kv.2]))
    meta := none }

/-- Outcome of one `RunStream` loop iteration after the one-second timer fires:
either the process panics (propagated from `ConsumerPull`) or the loop
continues, having handed `sent` to `sender.SendFrame` (`none` when the event
was nil and the iteration hit `continue` without building a frame). A
`SendFrame` error is logged and the loop continues, so it does not change the
outcome. -/
inductive StreamStep
  | panicked (e : KafkaErrorCode)
  | continued (sent : Option Frame)
deriving DecidableEq

/-- One iteration of the `RunStream` polling loop (plugin.go:192-217), given
the polled event and the runtime's enumeration `enum` of the Go map
`msg_data` (`for key, value := range msg_data`; the order is unspecified, so
it is abstracted as a parameter that the theorems constrain to a permutation
of the map's entries). -/
def RunStreamIteration (now : Time) (ev : Option KafkaEvent)
    (enum : KafkaMessage → List (String × Value)) : StreamStep :=
  match ConsumerPull ev with
  | PullOutcome.panicked e => StreamStep.panicked e
  | PullOutcome.returned msg evr =>
    match evr with
    | none => StreamStep.continued none
    | some _ => StreamStep.continued (some (BuildStreamFrame now (enum msg)))

/-- `type queryModel struct` (plugin.go:92-96). -/
structure queryModel where
  Topic : String
  Partition : Int
  WithStreaming : Bool
deriving DecidableEq

/-- The zero value a `var qm queryModel` declaration gives: empty topic,
partition 0, streaming off. -/
def queryModelZero : queryModel :=
  { Topic := "", Partition := 0, WithStreaming := false }

/-- A JSON document destined for `json.Unmarshal` into `queryModel`,
represented by its parse outcome: `ok qm` decodes to `qm`; `malformed err`
fails with error text `err`. -/
inductive QueryJSON
  | ok (qm : queryModel)
  | malformed (err : String)
deriving DecidableEq

/-- A `backend.RunStreamRequest`: its path and its data payload. -/
structure RunStreamRequest where
  Path : String
  Data : QueryJSON
deriving DecidableEq

/-- The topic-partition-offset triple passed to `KafkaClient.TopicAssign`
(client.go:43-59), which wraps it in a `kafka.TopicPartition` and calls
`Consumer.Assign`. -/
structure Assignment where
  topic : String
  partition : Int
  offset : Int
deriving DecidableEq

/-- The consumer-session calls `RunStream` makes before entering its loop:
`ConsumerInitialize` (client.go:30-41) and `TopicAssign`. -/
inductive SetupAction
  | consumerInit
  | topicAssign (a : Assignment)
deriving DecidableEq

/-- The setup `RunStream` performs before any poll (plugin.go:175-180): it
declares `var qm queryModel` — zero value, never populated from `req.Data`
(no unmarshal call exists) — calls `ConsumerInitialize`, then calls
`TopicAssign(qm.Topic, qm.Partition, -1)`. The request is ignored. -/
def RunStreamSetup (_req : RunStreamRequest) : List SetupAction :=
  [SetupAction.consumerInit,
   SetupAction.topicAssign
     { topic := queryModelZero.Topic
       partition := queryModelZero.Partition
       offset := -1 }]

/-- A `backend.DataQuery`: its RefID, its JSON payload, and its time range. -/
structure DataQuery where
  RefID : String
  JSON : QueryJSON
  TimeFrom : Time
  TimeTo : Time
deriving DecidableEq

/-- A `backend.DataResponse`: the error (from `json.Unmarshal`) and the frame
list. -/
structure DataResponse where
  Error : Option String
  Frames : List Frame
deriving DecidableEq

/-- A `live.Channel`: scope, namespace, path. -/
structure Channel where
  Scope : String
  Namespace : String
  Path : String
deriving DecidableEq

/-- `live.Channel.String()`: the three parts joined by "/". The source uses
scope `live.ScopeDatasource`, whose value is "ds". -/
def channelString (c : Channel) : String :=
  c.Scope ++ "/" ++ c.Namespace ++ "/" ++ c.Path

/-- `KafkaDatasource.Query` (plugin.go:98-134): unmarshal the query JSON into
`queryModel`; on error return a response carrying only that error; otherwise
build one frame named "response" with a "time" field holding the query range
`[From, To]` and a "values" `int64` field holding `[0, 0]`, and set its
channel metadata (scope "ds", namespace = datasource UID, path "stream")
exactly when `WithStreaming` is set. -/
def Query (uid : String) (query : DataQuery) : DataResponse :=
  match query.JSON with
  | QueryJSON.malformed err => { Error := some err, Frames := [] }
  | QueryJSON.ok qm =>
    { Error := none
      Frames := [{ name := "response"
                   fields := [Field.mk "time" (FieldValues.times [query.TimeFrom, query.TimeTo]),
                              Field.mk "values" (FieldValues.ints [0, 0])]
                   meta := if qm.WithStreaming
                           then some (channelString { Scope := "ds", Namespace := uid, Path := "stream" })
                           else none }] }

/-- `KafkaDatasource.QueryData` (plugin.go:74-90): run `Query` on each query
independently and record each result under that query's RefID. -/
def QueryData (uid : String) (queries : List DataQuery) : List (String × DataResponse) :=
  queries.map (fun q => (q.RefID, Query uid q))

/-- Outcome of the `GetMetadata` probe in `KafkaClient.HealthCheck`: `none` is
success, `some c` is a `kafka.Error` failure with code `c`. -/
abbrev MetadataResult := Option KafkaErrorCode

/-- `KafkaClient.HealthCheck` (client.go:86-96): probe metadata; return the
error only when its code is `kafka.ErrTransport`, otherwise return nil. -/
def HealthCheck (probe : MetadataResult) : Option KafkaErrorCode :=
  match probe with
  | some c => if c = KafkaErrorCode.errTransport then some c else none
  | none => none

/-- `backend.HealthStatus` values used by the source. -/
inductive HealthStatus
  | ok
  | error
deriving DecidableEq, Repr

/-- A `backend.CheckHealthResult`: status and message. -/
structure CheckHealthResult where
  Status : HealthStatus
  Message : String
deriving DecidableEq

/-- `KafkaDatasource.CheckHealth` (plugin.go:140-154): status starts OK with
message "Data source is working..."; if `HealthCheck` returns an error they
become ERROR and "Cannot connect to the brokers.". -/
def CheckHealth (probe : MetadataResult) : CheckHealthResult :=
  match HealthCheck probe with
  | some _ => { Status := HealthStatus.error, Message := "Cannot connect to the brokers." }
  | none => { Status := HealthStatus.ok, Message := "Data source is working..." }

/-- `backend.SubscribeStreamStatus` values used by the source. -/
inductive SubscribeStreamStatus
  | ok
  | permissionDenied
deriving DecidableEq, Repr

/-- `KafkaDatasource.SubscribeStream` (plugin.go:158-169): status defaults to
PermissionDenied and becomes OK exactly when the request path equals
"stream". -/
def SubscribeStream (path : String) : SubscribeStreamStatus :=
  if path = "stream" then SubscribeStreamStatus.ok else SubscribeStreamStatus.permissionDenied

/-- `backend.PublishStreamStatus` values used by the source. -/
inductive PublishStreamStatus
  | ok
  | permissionDenied
deriving DecidableEq, Repr

/-- A `backend.PublishStreamRequest`: its path and raw data. -/
structure PublishStreamRequest where
  Path : String
  Data : String
deriving DecidableEq

/-- `KafkaDatasource.PublishStream` (plugin.go:223-230): unconditionally
returns PermissionDenied. -/
def PublishStream (_req : PublishStreamRequest) : PublishStreamStatus :=
  PublishStreamStatus.permissionDenied

/-! Theorems settling the claims. -/

/-- Claim C1 (code bug, evaluated at the failing input): for a subscription
request identifying topic "purchases", partition 2, `RunStream`'s setup does
initialize the consumer first and then assign with offset -1, but it assigns
topic "" and partition 0 — the zero value of the never-populated `qm` — not
the request's topic and partition. -/
theorem runStreamSetup_ignores_request :
    RunStreamSetup { Path := "stream", Data := QueryJSON.ok { Topic := "purchases", Partition := 2, WithStreaming := true } } =
      [SetupAction.consumerInit,
       SetupAction.topicAssign { topic := "", partition := 0, offset := -1 }] ∧
    ("" : String) ≠ "purchases" ∧ (0 : Int) ≠ 2 := by
  exact ⟨rfl, by decide, by decide⟩

/-- Claim C2 counterexample: for a polled message event whose payload fails to
decode, the iteration does hand a frame to the sender (the bare time-only
frame), refuting "no frame is handed to the sender for that message". -/
theorem decodeFailure_sends_frame_cex :
    RunStreamIteration 42 (some (KafkaEvent.message 7 (Payload.malformed ("not json")))) id =
      StreamStep.continued (some { name := "response", fields := [Field.mk "time" (FieldValues.times [42])], meta := none }) ∧
    (some { name := "response", fields := [Field.mk "time" (FieldValues.times [42])], meta := none } : Option Frame) ≠ none := by
  exact ⟨rfl, by decide⟩

/-- Claim C2 amended: for every polled message event whose payload fails to
decode, the unmarshal error is ignored and the loop still hands the sender a
frame — built from whatever entries `json.Unmarshal` populated (none for a
syntactically malformed payload, the decodable entries for a valid JSON
object with some non-numeric values) — and continues polling (it does not
panic). -/
theorem decodeFailure_still_sends_frame (now prodTime : Time) (p : Payload)
    (enum : GrafanaKafka.KafkaMessage → List (String × Value))
    (h : decodeFails p = true) :
    RunStreamIteration now (some (KafkaEvent.message prodTime p)) enum =
      StreamStep.continued (some (BuildStreamFrame now (enum (DecodeMessage p)))) := by
  cases p with
  | flatNumMap kvs => simp [decodeFails] at h
  | partialNumMap kvs raw => simp [RunStreamIteration, ConsumerPull]
  | malformed raw => simp [RunStreamIteration, ConsumerPull]

/-- Witness for `decodeFailure_still_sends_frame` at the payload modelling
a valid JSON object with a non-numeric value, where unmarshal populates
a = 1 and leaves b as the zero value while returning an error: the sent frame
carries those value columns. -/
theorem decodeFailure_still_sends_frame_witness :
    decodeFails (Payload.partialNumMap [("a", 1), ("b", 0)] ("mixed")) = true ∧
    RunStreamIteration 42
        (some (KafkaEvent.message 7 (Payload.partialNumMap [("a", 1), ("b", 0)] ("mixed")))) id =
      StreamStep.continued
        (some (BuildStreamFrame 42 (id (DecodeMessage (Payload.partialNumMap [("a", 1), ("b", 0)] ("mixed")))))) :=
  ⟨rfl, decodeFailure_still_sends_frame 42 7 (Payload.partialNumMap [("a", 1), ("b", 0)] ("mixed")) id rfl⟩

/-- Claim C3 counterexample: for the decoded mapping a = 1.0, b = 2.5, the
reversed enumeration is a legitimate iteration order of the Go map (a
permutation of its entries), yet the emitted columns are [time, b, a], not the
discovery order [time, a, b]: Go map iteration order is unspecified, so the
claimed discovery order is not guaranteed. -/
theorem row_discovery_order_cex :
    ((fun m : GrafanaKafka.KafkaMessage => m.reverse)
        (DecodeMessage (Payload.flatNumMap [("a", 1), ("b", 5/2)]))).Perm
      (DecodeMessage (Payload.flatNumMap [("a", 1), ("b", 5/2)])) ∧
    RunStreamIteration 42 (some (KafkaEvent.message 7 (Payload.flatNumMap [("a", 1), ("b", 5/2)])))
        (fun m => m.reverse) =
      StreamStep.continued (some (Frame.mk "response"
        [Field.mk "time" (FieldValues.times [42]),
         Field.mk "b" (FieldValues.floats [5/2]),
         Field.mk "a" (FieldValues.floats [1])] none)) ∧
    [Field.mk "time" (FieldValues.times [42]),
     Field.mk "b" (FieldValues.floats [5/2]),
     Field.mk "a" (FieldValues.floats [1])] ≠
      [Field.mk "time" (FieldValues.times [42]),
       Field.mk "a" (FieldValues.floats [1]),
       Field.mk "b" (FieldValues.floats [5/2])] := by
  refine ⟨List.reverse_perm _, rfl, ?_⟩
  intro hcontra
  have hnames := congrArg (fun l => l.map Field.name) hcontra
  simp at hnames

/-- Claim C3 amended: for every message event whose payload decodes to a
mapping, the emitted frame is the capture-timestamp column (`now`, the
delivery time — the message's production timestamp `prodTime` does not occur
in the frame) followed by exactly one float column per decoded key, each
holding the message's value for that key, in the runtime's enumeration order
of the mapping — some permutation of the message's entries, not necessarily
discovery order. -/
theorem row_per_key_columns (now prodTime : Time) (kvs : List (String × Value))
    (enum : GrafanaKafka.KafkaMessage → List (String × Value))
    (h : (enum (DecodeMessage (Payload.flatNumMap kvs))).Perm
          (DecodeMessage (Payload.flatNumMap kvs))) :
    RunStreamIteration now (some (KafkaEvent.message prodTime (Payload.flatNumMap kvs))) enum =
      StreamStep.continued (some (Frame.mk "response"
        (Field.mk "time" (FieldValues.times [now]) ::
          (enum kvs).map (fun kv => Field.mk kv.1 (FieldValues.floats [kv.2]))) none)) ∧
    ((enum kvs).map (fun kv => Field.mk kv.1 (FieldValues.floats [kv.2]))).Perm
      (kvs.map (fun kv => Field.mk kv.1 (FieldValues.floats [kv.2]))) := by
  refine ⟨rfl, ?_⟩
  have h' : (enum kvs).Perm kvs := by simpa [DecodeMessage] using h
  exact h'.map _

/-- Witness for `row_per_key_columns` at the mapping a = 1.0, b = 2.5 with the
identity enumeration. -/
theorem row_per_key_columns_witness :
    RunStreamIteration 42 (some (KafkaEvent.message 7 (Payload.flatNumMap [("a", 1), ("b", 5/2)]))) id =
      StreamStep.continued (some (Frame.mk "response"
        (Field.mk "time" (FieldValues.times [42]) ::
          (id [("a", (1 : Value)), ("b", 5/2)]).map (fun kv => Field.mk kv.1 (FieldValues.floats [kv.2]))) none)) ∧
    ((id [("a", (1 : Value)), ("b", 5/2)]).map (fun kv => Field.mk kv.1 (FieldValues.floats [kv.2]))).Perm
      ([("a", (1 : Value)), ("b", 5/2)].map (fun kv => Field.mk kv.1 (FieldValues.floats [kv.2]))) :=
  row_per_key_columns 42 7 [("a", 1), ("b", 5/2)] id (List.Perm.refl _)

/-- Claim C4: an iteration terminates execution (panics) exactly when the poll
returned an error event with code `kafka.ErrAllBrokersDown`; for every other
event — timeout, message, any other error class, any other event type — the
loop continues. -/
theorem fatal_iff_allBrokersDown (now : Time) (ev : Option KafkaEvent)
    (enum : GrafanaKafka.KafkaMessage → List (String × Value)) :
    (∃ e, RunStreamIteration now ev enum = StreamStep.panicked e) ↔
      ev = some (KafkaEvent.errorEvent KafkaErrorCode.errAllBrokersDown) := by
  cases ev with
  | none => simp [RunStreamIteration, ConsumerPull]
  | some e =>
    cases e with
    | message t p => simp [RunStreamIteration, ConsumerPull]
    | errorEvent c =>
      by_cases hc : c = KafkaErrorCode.errAllBrokersDown <;>
        simp [RunStreamIteration, ConsumerPull, hc]
    | otherEvent => simp [RunStreamIteration, ConsumerPull]

/-- Claim C5: the health-check result is {ERROR, "Cannot connect to the
brokers."} exactly when the metadata probe fails with the transport error
class; any other probe outcome — success, or failure with any non-transport
code — yields {OK, "Data source is working..."}. -/
theorem checkHealth_transport_only (probe : MetadataResult) :
    CheckHealth probe =
      (if probe = some KafkaErrorCode.errTransport
       then { Status := HealthStatus.error, Message := "Cannot connect to the brokers." }
       else { Status := HealthStatus.ok, Message := "Data source is working..." }) := by
  cases probe with
  | none => simp [CheckHealth, HealthCheck]
  | some c =>
    by_cases hc : c = KafkaErrorCode.errTransport <;>
      simp [CheckHealth, HealthCheck, hc]

/-- Claim C6: for every query whose JSON decodes successfully, the response
has no error and a single frame whose fields are the "time" column holding the
query's range pair [From, To] and the "values" column holding [0, 0]; the
frame's metadata carries the channel locator (scope "ds", namespace = the
datasource UID, path "stream") exactly when `WithStreaming` is set. -/
theorem query_ok_frame (uid : String) (q : DataQuery) (qm : queryModel)
    (h : q.JSON = QueryJSON.ok qm) :
    Query uid q =
      DataResponse.mk none
        [Frame.mk "response"
          [Field.mk "time" (FieldValues.times [q.TimeFrom, q.TimeTo]),
           Field.mk "values" (FieldValues.ints [0, 0])]
          (if qm.WithStreaming
           then some (channelString (Channel.mk "ds" uid "stream"))
           else none)] := by
  simp [Query, h]

/-- Witness for `query_ok_frame` at a concrete streaming query. -/
theorem query_ok_frame_witness :
    Query "uid1" (DataQuery.mk "A" (QueryJSON.ok (queryModel.mk "topic1" 0 true)) 10 20) =
      DataResponse.mk none
        [Frame.mk "response"
          [Field.mk "time" (FieldValues.times [10, 20]),
           Field.mk "values" (FieldValues.ints [0, 0])]
          (if (queryModel.mk "topic1" 0 true).WithStreaming
           then some (channelString (Channel.mk "ds" "uid1" "stream"))
           else none)] :=
  query_ok_frame "uid1" (DataQuery.mk "A" (QueryJSON.ok (queryModel.mk "topic1" 0 true)) 10 20)
    (queryModel.mk "topic1" 0 true) rfl

/-- Claim C7: a query whose JSON is malformed gets a response carrying exactly
the decode error and no frames, and every other query in the same request is
unaffected: the request's response map is the unchanged per-query results for
the queries before and after it. -/
theorem query_malformed_isolated (uid : String) (qs1 qs2 : List DataQuery)
    (q : DataQuery) (err : String) (h : q.JSON = QueryJSON.malformed err) :
    QueryData uid (qs1 ++ q :: qs2) =
      QueryData uid qs1 ++ (q.RefID, DataResponse.mk (some err) []) :: QueryData uid qs2 := by
  simp [QueryData, Query, h]

/-- Witness for `query_malformed_isolated`: a two-query request whose second
query is malformed. -/
theorem query_malformed_isolated_witness :
    QueryData "u" ([DataQuery.mk "A" (QueryJSON.ok (queryModel.mk "t" 1 false)) 0 1] ++
        DataQuery.mk "B" (QueryJSON.malformed "bad") 0 1 :: []) =
      QueryData "u" [DataQuery.mk "A" (QueryJSON.ok (queryModel.mk "t" 1 false)) 0 1] ++
        ((DataQuery.mk "B" (QueryJSON.malformed "bad") 0 1).RefID,
          DataResponse.mk (some "bad") []) :: QueryData "u" [] :=
  query_malformed_isolated "u" [DataQuery.mk "A" (QueryJSON.ok (queryModel.mk "t" 1 false)) 0 1]
    [] (DataQuery.mk "B" (QueryJSON.malformed "bad") 0 1) "bad" rfl

/-- Claim C8: a subscribe request is granted (status OK) exactly when its path
is the literal "stream"; every other path — the empty string, "Stream", and
all the rest — yields PermissionDenied. -/
theorem subscribe_ok_iff_stream (path : String) :
    (SubscribeStream path = SubscribeStreamStatus.ok ↔ path = "stream") ∧
    (SubscribeStream path = SubscribeStreamStatus.ok ∨
      SubscribeStream path = SubscribeStreamStatus.permissionDenied) := by
  by_cases h : path = "stream" <;> simp [SubscribeStream, h]

/-- Claim C9: every publish request, whatever its path or payload, receives
PermissionDenied. -/
theorem publish_always_denied (req : PublishStreamRequest) :
    PublishStream req = PublishStreamStatus.permissionDenied := rfl

/-- Claim C10: every frame a streaming-loop iteration hands to the sender has
as its first field a field named "time" holding exactly one timestamp (the
capture time), and each remaining field holds exactly one float value; when
the decoded mapping is empty the frame is the single time field. -/
theorem sent_frame_shape (now : Time) (ev : Option KafkaEvent)
    (enum : GrafanaKafka.KafkaMessage → List (String × Value)) (f : Frame)
    (h : RunStreamIteration now ev enum = StreamStep.continued (some f)) :
    ∃ kvs : List (String × Value),
      f.fields = Field.mk "time" (FieldValues.times [now]) ::
          kvs.map (fun kv => Field.mk kv.1 (FieldValues.floats [kv.2])) ∧
      (kvs = [] → f.fields = [Field.mk "time" (FieldValues.times [now])]) := by
  cases ev with
  | none => simp [RunStreamIteration, ConsumerPull] at h
  | some e =>
    cases e with
    | message t p =>
      simp [RunStreamIteration, ConsumerPull, BuildStreamFrame] at h
      subst h
      exact ⟨enum (DecodeMessage p), rfl, fun he => by simp [he]⟩
    | errorEvent c =>
      by_cases hc : c = KafkaErrorCode.errAllBrokersDown
      · simp [RunStreamIteration, ConsumerPull, hc] at h
      · simp [RunStreamIteration, ConsumerPull, BuildStreamFrame, hc] at h
        subst h
        exact ⟨enum [], rfl, fun he => by simp [he]⟩
    | otherEvent =>
      simp [RunStreamIteration, ConsumerPull, BuildStreamFrame] at h
      subst h
      exact ⟨enum [], rfl, fun he => by simp [he]⟩

/-- Witness for `sent_frame_shape` at a concrete message event. -/
theorem sent_frame_shape_witness :
    ∃ kvs : List (String × Value),
      (Frame.mk "response" [Field.mk "time" (FieldValues.times [42]),
          Field.mk "a" (FieldValues.floats [1])] none).fields =
        Field.mk "time" (FieldValues.times [42]) ::
          kvs.map (fun kv => Field.mk kv.1 (FieldValues.floats [kv.2])) ∧
      (kvs = [] →
        (Frame.mk "response" [Field.mk "time" (FieldValues.times [42]),
            Field.mk "a" (FieldValues.floats [1])] none).fields =
          [Field.mk "time" (FieldValues.times [42])]) :=
  sent_frame_shape 42 (some (KafkaEvent.message 7 (Payload.flatNumMap [("a", 1)]))) id
    (Frame.mk "response" [Field.mk "time" (FieldValues.times [42]),
      Field.mk "a" (FieldValues.floats [1])] none) rfl

end GrafanaKafka
